import Mathlib

/-!
Verification of the login-page controller in `src/Frontend/script.js`
(Aromi-AI). The script is embedded shallowly: the persisted key-value
store and the DOM fields the script touches become a `PageState`
record, and every event handler becomes a state transformer. The
email check is the regular expression test
`/^[^\s@]+@[^\s@]+\.[^\s@]+$/.test(email)`, embedded as a
backtracking matcher over the character list.
-/

/-- Character class `\s` of JavaScript regular expressions:
space, tab, line feed, carriage return, vertical tab, form feed,
and the Unicode space characters. -/
def isJsSpace (c : Char) : Bool :=
  c = ' ' || c = '\t' || c = '\n' || c = '\r' ||
  c.toNat = 0x0B || c.toNat = 0x0C ||
  c.toNat = 0xA0 || c.toNat = 0x1680 ||
  (0x2000 ≤ c.toNat && c.toNat ≤ 0x200A) ||
  c.toNat = 0x2028 || c.toNat = 0x2029 || c.toNat = 0x202F ||
  c.toNat = 0x205F || c.toNat = 0x3000 || c.toNat = 0xFEFF

/-- Character class `[^\s@]` of the email regular expression in
`isValidEmail`: any character that is neither whitespace nor '@'. -/
def isEmailChar (c : Char) : Bool :=
  !(isJsSpace c) && !(c = '@' : Bool)

/-- JavaScript `String.prototype.trim`: drop whitespace from both ends. -/
def jsTrim (s : String) : String :=
  String.mk (((s.data.dropWhile isJsSpace).reverse.dropWhile isJsSpace).reverse)

/-- Backtracking matcher for `p+` followed by a continuation `k`:
consume one or more characters satisfying `p`, then succeed if `k`
accepts some remaining suffix. This is the semantics of the `+`
pieces of the anchored regular expression in `isValidEmail`. -/
def matchPlusThen (p : Char → Bool) (k : List Char → Bool) : List Char → Bool
  | [] => false
  | c :: cs => p c && (k cs || matchPlusThen p k cs)

/-- End-of-input continuation: the anchor `$` of the regular expression. -/
def endOfInput (cs : List Char) : Bool := cs.isEmpty

/-- The piece `\.[^\s@]+$` of the email regular expression. -/
def matchDotTail : List Char → Bool
  | [] => false
  | c :: rest => if c = '.' then matchPlusThen isEmailChar endOfInput rest else false

/-- The piece `[^\s@]+\.[^\s@]+$` of the email regular expression. -/
def matchAfterAt (cs : List Char) : Bool :=
  matchPlusThen isEmailChar matchDotTail cs

/-- The piece `@[^\s@]+\.[^\s@]+$` of the email regular expression. -/
def matchAtDom : List Char → Bool
  | [] => false
  | c :: rest => if c = '@' then matchAfterAt rest else false

/-- `isValidEmail` from `script.js`:
`/^[^\s@]+@[^\s@]+\.[^\s@]+$/.test(email)`. -/
def isValidEmail (email : String) : Bool :=
  matchPlusThen isEmailChar matchAtDom email.data

/-- `validateForm` from `script.js`: false when either string is empty
(the only falsy strings in JavaScript), otherwise the email check. -/
def validateForm (email password : String) : Bool :=
  if email = "" || password = "" then false
  else isValidEmail email

/-- The two keys of `localStorage` that `script.js` reads and writes. -/
structure Storage where
  theme : Option String
  rememberedEmail : Option String
deriving DecidableEq

/-- The page state the script manipulates: the persisted store plus the
DOM pieces the handlers read or write (root `data-theme` attribute, the
two input fields, the password input `type` attribute, the visibility
toggle icon class, the two theme icon opacities, the theme label text,
the remember-me checkbox, the fade-out class on the container, and
whether the redirect to the dashboard has been triggered). -/
structure PageState where
  storage : Storage
  dataTheme : Option String
  emailValue : String
  passwordValue : String
  passwordType : String
  toggleIconClass : String
  sunOpacity : String
  moonOpacity : String
  themeLabelText : String
  rememberMeChecked : Bool
  fadeOut : Bool
  navigated : Bool
deriving DecidableEq

/-- `updateThemeToggle(theme)` from `script.js`. -/
def updateThemeToggle (theme : String) (s : PageState) : PageState :=
  if theme = "dark" then
    { s with sunOpacity := "0.5", moonOpacity := "1", themeLabelText := "Dark Mode" }
  else
    { s with sunOpacity := "1", moonOpacity := "0.5", themeLabelText := "Light Mode" }

/-- `initTheme()` from `script.js`: `localStorage.getItem('theme') || 'light'`
(absent or empty both fall back, since the empty string is falsy),
set the root attribute, update the toggle. It does not write storage. -/
def initTheme (s : PageState) : PageState :=
  let savedTheme :=
    match s.storage.theme with
    | none => "light"
    | some t => if t = "" then "light" else t
  updateThemeToggle savedTheme { s with dataTheme := some savedTheme }

/-- `toggleTheme()` from `script.js`: read the root attribute, map the
exact value "light" to "dark" and anything else (including an absent
attribute) to "light", write the attribute and the storage key, update
the toggle. -/
def toggleTheme (s : PageState) : PageState :=
  let newTheme := if s.dataTheme = some "light" then "dark" else "light"
  updateThemeToggle newTheme
    { s with dataTheme := some newTheme
             storage := { s.storage with theme := some newTheme } }

/-- `togglePasswordVisibility()` from `script.js`. -/
def togglePasswordVisibility (s : PageState) : PageState :=
  let newType := if s.passwordType = "password" then "text" else "password"
  { s with passwordType := newType
           toggleIconClass :=
             if newType = "password" then "fas fa-eye" else "fas fa-eye-slash" }

/-- `navigateToDashboard()` from `script.js`: add the fade-out class and
trigger the (delayed) redirect to the dashboard page. -/
def navigateToDashboard (s : PageState) : PageState :=
  { s with fadeOut := true, navigated := true }

/-- `quickLogin()` from `script.js`. -/
def quickLogin (s : PageState) : PageState :=
  navigateToDashboard
    { s with emailValue := "hackathon@aromi.ai", passwordValue := "agentic_ai_demo" }

/-- The `loginForm` submit handler from `script.js`: trim the email
field, validate, and on success persist or remove `rememberedEmail`
according to the checkbox and navigate; on failure do nothing. -/
def submitHandler (s : PageState) : PageState :=
  let email := jsTrim s.emailValue
  let password := s.passwordValue
  let rememberMe := s.rememberMeChecked
  if validateForm email password then
    navigateToDashboard
      { s with storage :=
          { s.storage with rememberedEmail :=
              if rememberMe then some email else none } }
  else s

/-- The `DOMContentLoaded` handler from `script.js`: `initTheme`, then
pre-fill the email field and check remember-me when a (truthy, hence
non-empty) `rememberedEmail` is stored. -/
def initPage (s : PageState) : PageState :=
  let s1 := initTheme s
  match s1.storage.rememberedEmail with
  | none => s1
  | some e => if e = "" then s1 else { s1 with emailValue := e, rememberMeChecked := true }

/-- The five external stimuli of the controller. -/
inductive Op where
  | initPage
  | toggleTheme
  | togglePasswordVisibility
  | submit
  | quickLogin
deriving DecidableEq

/-- One event dispatch. -/
def step : Op → PageState → PageState
  | Op.initPage, s => initPage s
  | Op.toggleTheme, s => toggleTheme s
  | Op.togglePasswordVisibility, s => togglePasswordVisibility s
  | Op.submit, s => submitHandler s
  | Op.quickLogin, s => quickLogin s

/-- A sequence of event dispatches. -/
def run : List Op → PageState → PageState
  | [], s => s
  | op :: ops, s => run ops (step op s)

/-- A fresh page: empty storage, pristine DOM as in `index.html`. -/
def baseState : PageState :=
  { storage := { theme := none, rememberedEmail := none }
    dataTheme := none
    emailValue := ""
    passwordValue := ""
    passwordType := "password"
    toggleIconClass := "fas fa-eye"
    sunOpacity := "1"
    moonOpacity := "0.5"
    themeLabelText := "Light Mode"
    rememberMeChecked := false
    fadeOut := false
    navigated := false }

/-- The email shape stated by the specification: one or more characters
that are neither whitespace nor '@', then '@', then one or more such
characters, then '.', then one or more such characters. -/
def specEmailShape (email : String) : Prop :=
  ∃ l m r : List Char,
    email.data = l ++ '@' :: (m ++ '.' :: r) ∧
    l ≠ [] ∧ m ≠ [] ∧ r ≠ [] ∧
    (∀ c ∈ l, isEmailChar c = true) ∧
    (∀ c ∈ m, isEmailChar c = true) ∧
    (∀ c ∈ r, isEmailChar c = true)

theorem matchPlusThen_iff (p : Char → Bool) (k : List Char → Bool) :
    ∀ cs, matchPlusThen p k cs = true ↔
      ∃ l rest, cs = l ++ rest ∧ l ≠ [] ∧ (∀ c ∈ l, p c = true) ∧ k rest = true := by
  intro cs
  induction cs with
  | nil =>
      constructor
      · intro h; simp [matchPlusThen] at h
      · rintro ⟨l, rest, h, hl, _, _⟩
        exact (hl (List.append_eq_nil.mp h.symm).1).elim
  | cons c cs ih =>
      constructor
      · intro h
        rw [matchPlusThen, Bool.and_eq_true, Bool.or_eq_true] at h
        obtain ⟨hc, hk | hm⟩ := h
        · exact ⟨[c], cs, rfl, by simp, by simpa using hc, hk⟩
        · obtain ⟨l, rest, rfl, hl, hall, hk⟩ := ih.mp hm
          refine ⟨c :: l, rest, rfl, by simp, ?_, hk⟩
          intro x hx
          rcases List.mem_cons.mp hx with h | h
          · exact h ▸ hc
          · exact hall x h
      · rintro ⟨l, rest, heq, hl, hall, hk⟩
        cases l with
        | nil => exact absurd rfl hl
        | cons a l2 =>
          rw [List.cons_append] at heq
          injection heq with h1 h2
          subst h1
          rw [matchPlusThen, Bool.and_eq_true, Bool.or_eq_true]
          refine ⟨hall c (by simp), ?_⟩
          cases l2 with
          | nil =>
              left
              simpa [h2] using hk
          | cons b l3 =>
              right
              exact ih.mpr ⟨b :: l3, rest, h2, by simp,
                fun x hx => hall x (List.mem_cons_of_mem _ hx), hk⟩

theorem matchAtDom_iff (cs : List Char) :
    matchAtDom cs = true ↔ ∃ rest, cs = '@' :: rest ∧ matchAfterAt rest = true := by
  cases cs with
  | nil => simp [matchAtDom]
  | cons c rest =>
      by_cases h : c = '@'
      · subst h; simp [matchAtDom]
      · simp [matchAtDom, h]

theorem matchDotTail_iff (cs : List Char) :
    matchDotTail cs = true ↔
      ∃ rest, cs = '.' :: rest ∧ matchPlusThen isEmailChar endOfInput rest = true := by
  cases cs with
  | nil => simp [matchDotTail]
  | cons c rest =>
      by_cases h : c = '.'
      · subst h; simp [matchDotTail]
      · simp [matchDotTail, h]

theorem matchPlusEnd_iff (p : Char → Bool) (cs : List Char) :
    matchPlusThen p endOfInput cs = true ↔ cs ≠ [] ∧ ∀ c ∈ cs, p c = true := by
  rw [matchPlusThen_iff]
  constructor
  · rintro ⟨l, rest, rfl, hl, hall, hk⟩
    have hrest : rest = [] := by simpa [endOfInput] using hk
    subst hrest
    constructor
    · simpa using hl
    · simpa using hall
  · rintro ⟨hne, hall⟩
    exact ⟨cs, [], by simp, hne, hall, by simp [endOfInput]⟩

theorem isValidEmail_iff_shape (email : String) :
    isValidEmail email = true ↔ specEmailShape email := by
  unfold isValidEmail specEmailShape
  rw [matchPlusThen_iff]
  constructor
  · rintro ⟨l, rest, heq, hl, halll, hAt⟩
    obtain ⟨rest2, rfl, hAfter⟩ := (matchAtDom_iff rest).mp hAt
    unfold matchAfterAt at hAfter
    rw [matchPlusThen_iff] at hAfter
    obtain ⟨m, rest3, rfl, hm, hallm, hDot⟩ := hAfter
    obtain ⟨rest4, rfl, hTail⟩ := (matchDotTail_iff rest3).mp hDot
    obtain ⟨hr, hallr⟩ := (matchPlusEnd_iff isEmailChar rest4).mp hTail
    exact ⟨l, m, rest4, heq, hl, hm, hr, halll, hallm, hallr⟩
  · rintro ⟨l, m, r, heq, hl, hm, hr, halll, hallm, hallr⟩
    refine ⟨l, '@' :: (m ++ '.' :: r), heq, hl, halll, ?_⟩
    rw [matchAtDom_iff]
    refine ⟨m ++ '.' :: r, rfl, ?_⟩
    unfold matchAfterAt
    rw [matchPlusThen_iff]
    refine ⟨m, '.' :: r, rfl, hm, hallm, ?_⟩
    rw [matchDotTail_iff]
    exact ⟨r, rfl, (matchPlusEnd_iff isEmailChar r).mpr ⟨hr, hallr⟩⟩

/-- C1: for every pair of strings, `validateForm` returns true exactly
when both strings are non-empty and the email has the shape: one or
more characters that are neither whitespace nor '@', then '@', then one
or more such characters, then '.', then one or more such characters; in
particular it returns false whenever either field is empty or the email
lacks an '@' or a '.'. -/
theorem validateForm_iff_spec (email password : String) :
    validateForm email password = true ↔
      email ≠ "" ∧ password ≠ "" ∧ specEmailShape email := by
  unfold validateForm
  by_cases he : email = ""
  · simp [he]
  · by_cases hp : password = ""
    · simp [he, hp]
    · simp [he, hp, isValidEmail_iff_shape]

/-- A state about to submit the valid credentials of the round-trip
example. -/
def sA : PageState :=
  { baseState with emailValue := "a@b.com", passwordValue := "x", rememberMeChecked := true }

/-- A state about to submit credentials that fail validation. -/
def sBad : PageState :=
  { baseState with emailValue := "no-at-sign", passwordValue := "pw" }

/-- C2: when validation of the trimmed email and the password succeeds,
the submit handler persists the trimmed email under `rememberedEmail`
exactly when the remember-me box is checked, removes it otherwise, and
triggers the navigation to the dashboard. -/
theorem submitHandler_valid (s : PageState)
    (h : validateForm (jsTrim s.emailValue) s.passwordValue = true) :
    (submitHandler s).storage.rememberedEmail =
      (if s.rememberMeChecked then some (jsTrim s.emailValue) else none) ∧
    (submitHandler s).navigated = true ∧
    (submitHandler s).fadeOut = true ∧
    (submitHandler s).storage.theme = s.storage.theme := by
  unfold submitHandler
  simp [h, navigateToDashboard]

/-- Witness for C2: the round-trip of the specification, with
`submitHandler_valid` applied at both concrete states. -/
theorem submitHandler_valid_witness :
    (submitHandler sA).storage.rememberedEmail = some "a@b.com" ∧
    (submitHandler { submitHandler sA with
        emailValue := "c@d.com", passwordValue := "y",
        rememberMeChecked := false }).storage.rememberedEmail = none := by
  constructor
  · exact (submitHandler_valid sA (by decide)).1.trans (by decide)
  · exact (submitHandler_valid { submitHandler sA with
      emailValue := "c@d.com", passwordValue := "y",
      rememberMeChecked := false } (by decide)).1.trans (by decide)

/-- C3: when validation of the trimmed email and the password fails,
the submit handler is a no-op: the whole page state, in particular the
persisted store and the navigation flag, is unchanged. -/
theorem submitHandler_invalid (s : PageState)
    (h : validateForm (jsTrim s.emailValue) s.passwordValue = false) :
    submitHandler s = s := by
  unfold submitHandler
  simp [h]

/-- Witness for C3: a concrete invalid submission leaves the state
untouched. -/
theorem submitHandler_invalid_witness : submitHandler sBad = sBad :=
  submitHandler_invalid sBad (by decide)

/-- C8: `quickLogin` sets the two input fields to the fixed demo
credentials and triggers the navigation, for every prior state, and
leaves the persisted store (both keys) untouched. -/
theorem quickLogin_spec (s : PageState) :
    (quickLogin s).emailValue = "hackathon@aromi.ai" ∧
    (quickLogin s).passwordValue = "agentic_ai_demo" ∧
    (quickLogin s).navigated = true ∧
    (quickLogin s).fadeOut = true ∧
    (quickLogin s).storage = s.storage ∧
    (quickLogin s).dataTheme = s.dataTheme ∧
    (quickLogin s).passwordType = s.passwordType ∧
    (quickLogin s).rememberMeChecked = s.rememberMeChecked :=
  ⟨rfl, rfl, rfl, rfl, rfl, rfl, rfl, rfl⟩

/-- C9: `togglePasswordVisibility` flips the rendering type of the
password field between masked and plain, updates the eye icon class,
and changes nothing else: stored password value, email field, theme
attribute, theme render, remember-me, navigation and the persisted
store are all unchanged. -/
theorem togglePasswordVisibility_frame (s : PageState) :
    (togglePasswordVisibility s).passwordType =
      (if s.passwordType = "password" then "text" else "password") ∧
    (togglePasswordVisibility s).toggleIconClass =
      (if (if s.passwordType = "password" then "text" else "password") = "password"
        then "fas fa-eye" else "fas fa-eye-slash") ∧
    (togglePasswordVisibility s).passwordValue = s.passwordValue ∧
    (togglePasswordVisibility s).emailValue = s.emailValue ∧
    (togglePasswordVisibility s).storage = s.storage ∧
    (togglePasswordVisibility s).dataTheme = s.dataTheme ∧
    (togglePasswordVisibility s).sunOpacity = s.sunOpacity ∧
    (togglePasswordVisibility s).moonOpacity = s.moonOpacity ∧
    (togglePasswordVisibility s).themeLabelText = s.themeLabelText ∧
    (togglePasswordVisibility s).rememberMeChecked = s.rememberMeChecked ∧
    (togglePasswordVisibility s).fadeOut = s.fadeOut ∧
    (togglePasswordVisibility s).navigated = s.navigated :=
  ⟨rfl, rfl, rfl, rfl, rfl, rfl, rfl, rfl, rfl, rfl, rfl, rfl⟩

/-- C10: `toggleTheme` maps the exact rendered value "light" to "dark"
and every other rendered value, an absent attribute included, to
"light", writing the result both to the root attribute and to the
persisted theme key. -/
theorem toggleTheme_flip (s : PageState) :
    (toggleTheme s).dataTheme =
      some (if s.dataTheme = some "light" then "dark" else "light") ∧
    (toggleTheme s).storage.theme =
      some (if s.dataTheme = some "light" then "dark" else "light") := by
  by_cases h : s.dataTheme = some "light"
  · simp [toggleTheme, updateThemeToggle, h]
  · simp [toggleTheme, updateThemeToggle, h]

/-- The value `initTheme` computes from the stored theme key:
the stored string when present and non-empty, "light" otherwise. -/
def savedThemeOf : Option String → String
  | none => "light"
  | some t => if t = "" then "light" else t

/-- A page whose storage holds the invalid theme value "purple",
as left behind for instance by another page or a devtools edit,
already applied to the root attribute. -/
def purpleState : PageState :=
  { baseState with dataTheme := some "purple"
                   storage := { theme := some "purple", rememberedEmail := none } }

theorem initTheme_fields (s : PageState) :
    (initTheme s).dataTheme = some (savedThemeOf s.storage.theme) ∧
    (initTheme s).sunOpacity =
      (if savedThemeOf s.storage.theme = "dark" then "0.5" else "1") ∧
    (initTheme s).moonOpacity =
      (if savedThemeOf s.storage.theme = "dark" then "1" else "0.5") ∧
    (initTheme s).themeLabelText =
      (if savedThemeOf s.storage.theme = "dark" then "Dark Mode" else "Light Mode") ∧
    (initTheme s).storage = s.storage := by
  obtain ⟨⟨th, rem⟩, dt, ev, pv, pt, ic, so, mo, tl, rm, fo, nv⟩ := s
  cases th with
  | none => simp [initTheme, updateThemeToggle, savedThemeOf]
  | some t =>
      by_cases ht : t = ""
      · simp [initTheme, updateThemeToggle, savedThemeOf, ht]
      · by_cases hd : t = "dark"
        · simp [initTheme, updateThemeToggle, savedThemeOf, ht, hd]
        · simp [initTheme, updateThemeToggle, savedThemeOf, ht, hd]

theorem initPage_eq_cases (s : PageState) :
    initPage s = initTheme s ∨
    ∃ e, (initTheme s).storage.rememberedEmail = some e ∧
      initPage s = { initTheme s with emailValue := e, rememberMeChecked := true } := by
  simp only [initPage]
  split
  next heq => exact Or.inl rfl
  next e heq =>
    split
    next he => exact Or.inl rfl
    next he => exact Or.inr ⟨e, heq, rfl⟩

theorem initPage_theme_fields (s : PageState) :
    (initPage s).dataTheme = some (savedThemeOf s.storage.theme) ∧
    (initPage s).sunOpacity =
      (if savedThemeOf s.storage.theme = "dark" then "0.5" else "1") ∧
    (initPage s).moonOpacity =
      (if savedThemeOf s.storage.theme = "dark" then "1" else "0.5") ∧
    (initPage s).themeLabelText =
      (if savedThemeOf s.storage.theme = "dark" then "Dark Mode" else "Light Mode") ∧
    (initPage s).storage = s.storage := by
  obtain ⟨hdt, hsun, hmoon, hlab, hst⟩ := initTheme_fields s
  rcases initPage_eq_cases s with h | ⟨e, _, h⟩ <;>
    rw [h] <;> exact ⟨hdt, hsun, hmoon, hlab, hst⟩

/-- C4 counterexample: with the invalid value "purple" stored under the
theme key, `initPage` applies "purple" to the document root, not the
claimed fallback "light". -/
theorem initPage_invalid_not_light :
    (initPage purpleState).storage.theme = some "purple" ∧
    (initPage purpleState).dataTheme = some "purple" ∧
    (initPage purpleState).dataTheme ≠ some "light" := by decide

/-- C4 amended: `initPage` falls back to "light" only when the stored
theme value is absent or the empty string; any other stored value,
valid or not, is applied to the document root as-is, and the toggle
renders the dark-mode state exactly when the applied value is "dark"
and the light-mode state otherwise. Storage itself is not written. -/
theorem initPage_theme_spec (s : PageState) :
    (initPage s).dataTheme = some (savedThemeOf s.storage.theme) ∧
    (initPage s).sunOpacity =
      (if savedThemeOf s.storage.theme = "dark" then "0.5" else "1") ∧
    (initPage s).moonOpacity =
      (if savedThemeOf s.storage.theme = "dark" then "1" else "0.5") ∧
    (initPage s).themeLabelText =
      (if savedThemeOf s.storage.theme = "dark" then "Dark Mode" else "Light Mode") ∧
    (initPage s).storage = s.storage :=
  initPage_theme_fields s

/-- Agreement of the rendered root attribute with the effective theme
derived from storage: the persisted value when present and non-empty,
"light" otherwise. -/
def themeAgree (s : PageState) : Prop :=
  s.dataTheme = some (savedThemeOf s.storage.theme)

theorem updateThemeToggle_storage (t : String) (s : PageState) :
    (updateThemeToggle t s).storage = s.storage := by
  unfold updateThemeToggle; split <;> rfl

theorem updateThemeToggle_dataTheme (t : String) (s : PageState) :
    (updateThemeToggle t s).dataTheme = s.dataTheme := by
  unfold updateThemeToggle; split <;> rfl

theorem toggleTheme_theme (s : PageState) :
    (toggleTheme s).storage.theme =
      some (if s.dataTheme = some "light" then "dark" else "light") := by
  simp only [toggleTheme]
  rw [updateThemeToggle_storage]

theorem toggleTheme_dataTheme (s : PageState) :
    (toggleTheme s).dataTheme =
      some (if s.dataTheme = some "light" then "dark" else "light") := by
  simp only [toggleTheme]
  rw [updateThemeToggle_dataTheme]

theorem toggleTheme_rememberedEmail (s : PageState) :
    (toggleTheme s).storage.rememberedEmail = s.storage.rememberedEmail := by
  simp only [toggleTheme]
  rw [updateThemeToggle_storage]

theorem themeAgree_toggleTheme (s : PageState) : themeAgree (toggleTheme s) := by
  unfold themeAgree
  rw [toggleTheme_dataTheme, toggleTheme_theme]
  by_cases h : s.dataTheme = some "light" <;> simp [h, savedThemeOf]

theorem themeAgree_initPage (s : PageState) : themeAgree (initPage s) := by
  have h := initPage_theme_fields s
  unfold themeAgree
  rw [h.1, h.2.2.2.2]

theorem themeAgree_step (op : Op) (s : PageState) (h : themeAgree s) :
    themeAgree (step op s) := by
  cases op with
  | initPage => exact themeAgree_initPage s
  | toggleTheme => exact themeAgree_toggleTheme s
  | togglePasswordVisibility => exact h
  | quickLogin => exact h
  | submit =>
      unfold themeAgree at h ⊢
      simp only [step, submitHandler]
      split
      · exact h
      · exact h

theorem themeAgree_run (ops : List Op) (s : PageState) (h : themeAgree s) :
    themeAgree (run ops s) := by
  induction ops generalizing s with
  | nil => exact h
  | cons op ops ih => exact ih _ (themeAgree_step op s h)

/-- C5 counterexample: on a fresh page with no stored theme, `initPage`
renders "light" on the document root but writes nothing to storage, so
the persisted theme value (absent) and the rendered attribute do not
agree. -/
theorem themeSync_cex :
    (initPage baseState).dataTheme = some "light" ∧
    (initPage baseState).storage.theme = none ∧
    (initPage baseState).storage.theme ≠ (initPage baseState).dataTheme := by decide

/-- C5 amended: after any theme mutation (`initPage` or `toggleTheme`)
and from then on under every further operation, the rendered root
attribute equals the effective theme derived from storage - the
persisted value when present and non-empty, "light" otherwise.
`toggleTheme` also writes the persisted key, so persisted and rendered
are literally equal after it; `initPage` on absent or empty storage
renders "light" without persisting it, so only effective agreement
holds there. -/
theorem themeAgree_invariant (s : PageState) (op : Op) (ops : List Op)
    (h : op = Op.initPage ∨ op = Op.toggleTheme) :
    themeAgree (run ops (step op s)) := by
  rcases h with rfl | rfl
  · exact themeAgree_run ops _ (themeAgree_initPage s)
  · exact themeAgree_run ops _ (themeAgree_toggleTheme s)

/-- Witness for the amended C5: one toggle on a fresh page, checked at
the concrete state. -/
theorem themeAgree_invariant_witness :
    themeAgree (run [] (step Op.toggleTheme baseState)) :=
  themeAgree_invariant baseState Op.toggleTheme [] (Or.inr rfl)

/-- A consistent light theme state: rendered attribute, persisted value
and toggle render all light. -/
def lightState : PageState :=
  { baseState with dataTheme := some "light"
                   storage := { theme := some "light", rememberedEmail := none } }

/-- C6 counterexample: a theme state whose rendered and persisted value
is "purple" (the state `initPage` produces when "purple" is stored).
Two toggles end with "dark" rendered and persisted, so neither the
persisted preference nor the render returns to its original value. -/
theorem toggleTwice_cex :
    (toggleTheme (toggleTheme purpleState)).storage.theme = some "dark" ∧
    (toggleTheme (toggleTheme purpleState)).storage.theme ≠ purpleState.storage.theme ∧
    (toggleTheme (toggleTheme purpleState)).dataTheme ≠ purpleState.dataTheme := by decide

/-- C6 amended: on a consistent two-valued theme state - rendered
attribute and persisted value both equal to t, t either "light" or
"dark", toggle render matching t - calling `toggleTheme` twice restores
the exact original page state. -/
theorem toggleTwice_id (s : PageState) (t : String)
    (ht : t = "light" ∨ t = "dark")
    (hdt : s.dataTheme = some t)
    (hst : s.storage.theme = some t)
    (hsun : s.sunOpacity = (if t = "dark" then "0.5" else "1"))
    (hmoon : s.moonOpacity = (if t = "dark" then "1" else "0.5"))
    (hlab : s.themeLabelText = (if t = "dark" then "Dark Mode" else "Light Mode")) :
    toggleTheme (toggleTheme s) = s := by
  obtain ⟨⟨th, rem⟩, dt, ev, pv, pt, ic, so, mo, tl, rm, fo, nv⟩ := s
  rcases ht with rfl | rfl <;> simp_all [toggleTheme, updateThemeToggle]

/-- Witness for the amended C6: two toggles on the canonical light
state give back the light state. -/
theorem toggleTwice_id_witness : toggleTheme (toggleTheme lightState) = lightState :=
  toggleTwice_id lightState "light" (Or.inl rfl) rfl rfl (by decide) (by decide) (by decide)

/-- The stored remembered email, when present, passes the email check. -/
def remValid (s : PageState) : Prop :=
  ∀ e, s.storage.rememberedEmail = some e → isValidEmail e = true

theorem validateForm_email (e p : String) (h : validateForm e p = true) :
    isValidEmail e = true := by
  unfold validateForm at h
  split at h
  · exact absurd h (by simp)
  · exact h

theorem remValid_step (op : Op) (s : PageState) (h : remValid s) :
    remValid (step op s) := by
  cases op with
  | initPage =>
      intro e he
      have hst : (initPage s).storage = s.storage := (initPage_theme_fields s).2.2.2.2
      exact h e (by rw [show step Op.initPage s = initPage s from rfl, hst] at he; exact he)
  | toggleTheme =>
      intro e he
      exact h e (by rw [show step Op.toggleTheme s = toggleTheme s from rfl,
        toggleTheme_rememberedEmail] at he; exact he)
  | togglePasswordVisibility => exact fun e he => h e he
  | quickLogin => exact fun e he => h e he
  | submit =>
      intro e he
      simp only [step, submitHandler] at he
      split at he
      next hv =>
        simp only [navigateToDashboard] at he
        by_cases hr : s.rememberMeChecked
        · rw [if_pos hr] at he
          obtain rfl : jsTrim s.emailValue = e := Option.some.injEq _ _ ▸ he
          exact validateForm_email _ _ hv
        · rw [if_neg hr] at he
          exact absurd he (by simp)
      next hv => exact h e he

theorem remValid_run (ops : List Op) (s : PageState) (h : remValid s) :
    remValid (run ops s) := by
  induction ops generalizing s with
  | nil => exact h
  | cons op ops ih => exact ih _ (remValid_step op s h)

/-- C7: the remembered-email validity invariant. If every stored
remembered email of a state passes the email check - in particular on a
fresh page, where none is stored - then the same holds in every state
reachable from it by any sequence of the five operations: the only
write of the key stores the trimmed email of a submission that passed
validation, and `quickLogin` never touches the store. -/
theorem remValid_invariant (s : PageState) (ops : List Op) (h : remValid s) :
    remValid (run ops s) :=
  remValid_run ops s h

/-- Witness for C7: a valid submission on a fresh page, checked at the
concrete state; the hypothesis holds there since no email is stored. -/
theorem remValid_invariant_witness : remValid (run [Op.submit] sA) :=
  remValid_invariant sA [Op.submit] (fun _ he => Option.noConfusion he)
